import Mathlib

/-!
Shallow embedding of the cpuproc repository (Linux build) and proofs about it.

Conventions of the embedding:
* Go `float64` values are modelled as exact rationals (`ℚ`); the claims under
  study involve only small exact decimal arithmetic.
* Fallible Go functions returning `(T, error)` become `Except` values; Go
  run-time panics (out-of-range slice or index) become a dedicated `panic`
  outcome, distinct from an error return.
* File reads are abstracted as parameters holding the would-be read result
  (`Option`/`Except` of the lines of the file), mirroring the call sites.
-/

namespace Cpuproc

/-- One CPU time-accounting snapshot, mirroring the `TimesStat` struct of the repository
(fields assigned by `parseStatLine` in `cpuproc_linux.go`); all
durations are seconds modelled as `ℚ`. -/
structure TimesStat where
  CPU : String
  User : ℚ
  Nice : ℚ
  System : ℚ
  Idle : ℚ
  Iowait : ℚ
  Irq : ℚ
  Softirq : ℚ
  Steal : ℚ
  Guest : ℚ
  GuestNice : ℚ
  deriving DecidableEq, Repr

/-- Modelled from the spec: the `TimesStat.Total()` method is declared in a
repository file not present under `src/`; the spec §3 data-model invariant
gives its formula: `total = user+nice+system+idle+iowait+irq+softirq+steal
+guest+guestNice`. -/
def TimesStat.Total (t : TimesStat) : ℚ :=
  t.User + t.Nice + t.System + t.Idle + t.Iowait + t.Irq + t.Softirq +
    t.Steal + t.Guest + t.GuestNice

/-- Error values surfaced by the percentage engine (the count-mismatch
`fmt.Errorf` of `calculateAllBusy` and the nil-baseline `fmt.Errorf` of
`percentUsedFromLastCallWithContext`). -/
inductive CPUErr where
  | shapeMismatch (n m : ℕ)
  | noBaseline
  deriving DecidableEq, Repr

/-- `getAllBusy` from the percentage-engine source file: total with guest and
guestNice subtracted (the `runtime.GOOS == "linux"` branch, this being the
Linux build), and busy = total - idle - iowait. -/
def getAllBusy (t : TimesStat) : ℚ × ℚ :=
  let tot := t.Total - t.Guest - t.GuestNice
  let busy := tot - t.Idle - t.Iowait
  (tot, busy)

/-- `calculateBusy` from the percentage-engine source file. -/
def calculateBusy (t1 t2 : TimesStat) : ℚ :=
  let p1 := getAllBusy t1
  let p2 := getAllBusy t2
  if p2.2 ≤ p1.2 then 0
  else if p2.1 ≤ p1.1 then 100
  else min 100 (max 0 ((p2.2 - p1.2) / (p2.1 - p1.1) * 100))

/-- `calculateAllBusy` from the percentage-engine source file: length check,
then positional `calculateBusy` over the two snapshot sequences. -/
def calculateAllBusy (t1 t2 : List TimesStat) : Except CPUErr (List ℚ) :=
  if t1.length ≠ t2.length then
    .error (.shapeMismatch t1.length t2.length)
  else
    .ok (List.zipWith calculateBusy t1 t2)

/-- The all-zero snapshot, used as a concrete test vector. -/
def zeroStat : TimesStat :=
  ⟨"cpu-total", 0, 0, 0, 0, 0, 0, 0, 0, 0, 0⟩

/-- Snapshot with one idle second and nothing else, a concrete test vector. -/
def idleOneStat : TimesStat :=
  ⟨"cpu-total", 0, 0, 0, 1, 0, 0, 0, 0, 0, 0⟩

/-- Snapshot with one user second and nothing else, a concrete test vector. -/
def userOneStat : TimesStat :=
  ⟨"cpu-total", 1, 0, 0, 0, 0, 0, 0, 0, 0, 0⟩

/-- Go `unicode.IsSpace` restricted to the Latin-1 range (all characters the
modelled inputs can contain): tab, newline, vertical tab, form feed, carriage
return, space, NEL, NBSP. -/
def goIsSpace (c : Char) : Bool :=
  c == ' ' || c == '\t' || c == '\n' || c == Char.ofNat 11 ||
    c == Char.ofNat 12 || c == '\r' || c == Char.ofNat 0x85 || c == Char.ofNat 0xA0

/-- Accumulator-style worker for `goFields`: splits a character list around
runs of white space, emitting no empty fields. -/
def fieldsAux (acc : List Char) : List Char → List String
  | [] => if acc = [] then [] else [String.mk acc.reverse]
  | c :: cs =>
    if goIsSpace c then
      if acc = [] then fieldsAux [] cs
      else String.mk acc.reverse :: fieldsAux [] cs
    else fieldsAux (c :: acc) cs

/-- Go `strings.Fields`: split around runs of white space, no empty fields. -/
def goFields (s : String) : List String :=
  fieldsAux [] s.data

/-- Go `strings.HasPrefix`. -/
def goStartsWith (s pre : String) : Bool :=
  pre.data.isPrefixOf s.data

/-- Value of a nonempty all-digit character list read in base 10; `none` if
empty or any character is not a decimal digit. -/
def decDigits (cs : List Char) : Option ℕ :=
  if cs = [] then none
  else cs.foldlM (fun acc c => if c.isDigit then some (acc * 10 + (c.toNat - 48)) else none) 0

/-- Go `strconv.ParseUint(s, 10, 64)`: digits only (no sign), value must fit
in 64 bits. -/
def goParseUint64 (s : String) : Option ℕ :=
  match decDigits s.data with
  | none => none
  | some v => if v < 2 ^ 64 then some v else none

/-- Go `strconv.ParseInt(s, 10, bits)`: optional sign, digits, signed two-complement
range check for the given bit size. -/
def goParseInt (bits : ℕ) (s : String) : Option ℤ :=
  let sd : ℤ × List Char :=
    match s.data with
    | '+' :: r => (1, r)
    | '-' :: r => (-1, r)
    | r => (1, r)
  match decDigits sd.2 with
  | none => none
  | some v =>
    let n : ℤ := sd.1 * v
    if -(2 ^ (bits - 1)) ≤ n ∧ n < 2 ^ (bits - 1) then some n else none

/-- Go `strconv.ParseFloat(s, 64)` restricted to the plain-decimal forms the
kernel pseudo-files contain (optional sign, digits, optional fraction part);
the value is kept exact as a rational. -/
def goParseFloat (s : String) : Option ℚ :=
  let sd : ℚ × List Char :=
    match s.data with
    | '+' :: r => (1, r)
    | '-' :: r => (-1, r)
    | r => (1, r)
  let ip := sd.2.takeWhile Char.isDigit
  let rest := sd.2.dropWhile Char.isDigit
  match rest with
  | [] =>
    match decDigits ip with
    | none => none
    | some v => some (sd.1 * v)
  | '.' :: fr =>
    let fp := fr.takeWhile Char.isDigit
    let rest2 := fr.dropWhile Char.isDigit
    if rest2 ≠ [] then none
    else if ip = [] ∧ fp = [] then none
    else
      let iv : ℕ := (decDigits ip).getD 0
      let fv : ℕ := (decDigits fp).getD 0
      some (sd.1 * ((iv : ℚ) + (fv : ℚ) / 10 ^ fp.length))
  | _ => none

/-- The package variable `ClocksPerSec` at its initial value 100 (it is never
reassigned in the repository). -/
def ClocksPerSec : ℚ := 100

/-- `parseStatLine` from `cpuproc_linux.go`: decode one line of the aggregate
counter file into a `TimesStat`, relabeling the first field `"cpu"` to
`"cpu-total"`, converting ticks to seconds, and reading the optional steal /
guest / guestNice columns when present. -/
def parseStatLine (line : String) : Except String TimesStat :=
  let fields := goFields line
  if fields.length < 8 then .error "stat does not contain cpu info"
  else if ¬ goStartsWith (fields.getD 0 "") "cpu" then .error "not contain cpu"
  else
    let cpu0 := fields.getD 0 ""
    let cpu := if cpu0 = "cpu" then "cpu-total" else cpu0
    match goParseFloat (fields.getD 1 "") with
    | none => .error "ParseFloat user"
    | some user =>
    match goParseFloat (fields.getD 2 "") with
    | none => .error "ParseFloat nice"
    | some nice =>
    match goParseFloat (fields.getD 3 "") with
    | none => .error "ParseFloat system"
    | some system =>
    match goParseFloat (fields.getD 4 "") with
    | none => .error "ParseFloat idle"
    | some idle =>
    match goParseFloat (fields.getD 5 "") with
    | none => .error "ParseFloat iowait"
    | some iowait =>
    match goParseFloat (fields.getD 6 "") with
    | none => .error "ParseFloat irq"
    | some irq =>
    match goParseFloat (fields.getD 7 "") with
    | none => .error "ParseFloat softirq"
    | some softirq =>
    match (if 8 < fields.length then goParseFloat (fields.getD 8 "") else some 0) with
    | none => .error "ParseFloat steal"
    | some steal =>
    match (if 9 < fields.length then goParseFloat (fields.getD 9 "") else some 0) with
    | none => .error "ParseFloat guest"
    | some guest =>
    match (if 10 < fields.length then goParseFloat (fields.getD 10 "") else some 0) with
    | none => .error "ParseFloat guestNice"
    | some guestNice =>
      .ok { CPU := cpu
            User := user / ClocksPerSec
            Nice := nice / ClocksPerSec
            System := system / ClocksPerSec
            Idle := idle / ClocksPerSec
            Iowait := iowait / ClocksPerSec
            Irq := irq / ClocksPerSec
            Softirq := softirq / ClocksPerSec
            Steal := steal / ClocksPerSec
            Guest := guest / ClocksPerSec
            GuestNice := guestNice / ClocksPerSec }

/-- `TimesWithContext` from `cpuproc_linux.go`, with the file read abstracted:
`fileLines = none` models a `ReadLines`/open failure, `some ls` a successful
read of the lines of the aggregate counter file.  The Go error result is
always nil, so the model returns just the list.  `percpu=true` skips the first
line, keeps subsequent lines while they start with `"cpu"`, and silently skips
lines that fail to parse; `percpu=false` reads at most the first line (an open
failure makes `ReadLinesOffsetN` return the one-element slice `[""]`, whose
parse failure is skipped). -/
def TimesWithContext (fileLines : Option (List String)) (percpu : Bool) : List TimesStat :=
  if percpu then
    match fileLines with
    | none => []
    | some statlines =>
      if statlines.length < 2 then []
      else
        let lines := statlines.tail.takeWhile (fun l => goStartsWith l "cpu")
        lines.filterMap (fun l => (parseStatLine l).toOption)
  else
    let lines : List String :=
      match fileLines with
      | none => [""]
      | some ls => ls.take 1
    lines.filterMap (fun l => (parseStatLine l).toOption)

/-- Outcome of a Go computation that may return a value, return an error, or
abort with a run-time panic (out-of-range slice or index expression). -/
inductive GoResult (ε α : Type) where
  | panic
  | err (e : ε)
  | ok (a : α)
  deriving DecidableEq, Repr

/-- True exactly when the outcome is an error return (not a panic, not ok). -/
def GoResult.isErr {ε α : Type} : GoResult ε α → Bool
  | .err _ => true
  | _ => false

/-- Go `bytes.IndexByte`: first index of the character, or -1. -/
def goIndexByte (cs : List Char) (c : Char) : ℤ :=
  match cs.findIdx? (fun x => x == c) with
  | none => -1
  | some i => i

/-- Go `bytes.LastIndexByte`: last index of the character, or -1. -/
def goLastIndexByte (cs : List Char) (c : Char) : ℤ :=
  match cs.reverse.findIdx? (fun x => x == c) with
  | none => -1
  | some i => (cs.length : ℤ) - 1 - i

/-- Go slice expression `cs[low:high]`: `none` models the run-time panic when
`0 ≤ low ≤ high ≤ len` fails. -/
def goSlice (cs : List Char) (low high : ℤ) : Option (List Char) :=
  if 0 ≤ low ∧ low ≤ high ∧ high ≤ (cs.length : ℤ) then
    some ((cs.take high.toNat).drop low.toNat)
  else none

/-- Go `strings.TrimSpace` (on the character list). -/
def goTrimSpace (cs : List Char) : String :=
  String.mk (((cs.dropWhile goIsSpace).reverse.dropWhile goIsSpace).reverse)

/-- `splitProcStat` from `cpuproc_linux.go`: locate the first `(` and last `)`,
take the bytes from two past the last paren as whitespace-separated fields, the bytes between
the parens as the name, the bytes before `(` (trimmed) as the pid, and return
`["", pid, name, rest...]` so that indexing is 1-based as in `man proc`.
`none` models the run-time panic of an out-of-range slice (e.g. when a paren
is missing or the content is empty). -/
def splitProcStat (content : List Char) : Option (List String) :=
  let nameStart := goIndexByte content '('
  let nameEnd := goLastIndexByte content ')'
  match goSlice content (nameEnd + 2) content.length with
  | none => none
  | some tailCs =>
    let restFields := goFields (String.mk tailCs)
    match goSlice content (nameStart + 1) nameEnd with
    | none => none
    | some nameCs =>
      match goSlice content 0 nameStart with
      | none => none
      | some pidCs =>
        some ("" :: goTrimSpace pidCs :: String.mk nameCs :: restFields)

/-- Per-process fault counters (`PageFaultsStat` in `cpuproc_linux.go`). -/
structure PageFaultsStat where
  MinorFaults : ℕ
  MajorFaults : ℕ
  ChildMinorFaults : ℕ
  ChildMajorFaults : ℕ
  deriving DecidableEq, Repr

/-- The tuple `fillFromTIDStatWithContext` returns on success. -/
structure ProcStatResult where
  terminal : ℕ
  ppid : ℤ
  cpuTimes : TimesStat
  createTime : ℤ
  rtpriority : ℕ
  nice : ℤ
  faults : PageFaultsStat
  deriving DecidableEq, Repr

/-- The package variable `clockTicks` at its initial value 100 (never
reassigned in the repository). -/
def clockTicks : ℕ := 100

/-- Go index expression `fields[i]` on a string slice: panics when out of
range. -/
def goIndexList (fields : List String) (i : ℕ) : GoResult String String :=
  if i < fields.length then .ok (fields.getD i "") else .panic

/-- Conversion `uint64(n)` of an int64 value. -/
def goIntToUint64 (n : ℤ) : ℕ :=
  (n % 2 ^ 64).toNat

/-- Conversion `uint64(x)` of a float64 value (truncation; the modelled inputs
are non-negative and in range, where Go truncates toward zero). -/
def goFloatToUint64 (q : ℚ) : ℕ :=
  ⌊q⌋.toNat

/-- The field-parsing body of `fillFromTIDStatWithContext` (everything after
`splitProcStat`), over the 1-indexed `fields` produced by the split.
`bootTime` stands for the `BootTimeWithContext` result (its error is ignored
by the source) and `snice` for the `unix.Getpriority` syscall result. -/
def fillFromFields (fields : List String) (bootTime : ℕ) (snice : ℤ) :
    GoResult String ProcStatResult :=
  match goIndexList fields 7 with
  | .panic => .panic
  | .err e => .err e
  | .ok f7 =>
  match goParseUint64 f7 with
  | none => .err "ParseUint terminal"
  | some terminal =>
  match goIndexList fields 4 with
  | .panic => .panic
  | .err e => .err e
  | .ok f4 =>
  match goParseInt 32 f4 with
  | none => .err "ParseInt ppid"
  | some ppid =>
  match goIndexList fields 14 with
  | .panic => .panic
  | .err e => .err e
  | .ok f14 =>
  match goParseFloat f14 with
  | none => .err "ParseFloat utime"
  | some utime =>
  match goIndexList fields 15 with
  | .panic => .panic
  | .err e => .err e
  | .ok f15 =>
  match goParseFloat f15 with
  | none => .err "ParseFloat stime"
  | some stime =>
  let iotime : ℚ :=
    if 42 < fields.length then (goParseFloat (fields.getD 42 "")).getD 0 else 0
  let cpuTimes : TimesStat :=
    { CPU := "cpu"
      User := utime / (clockTicks : ℚ)
      Nice := 0
      System := stime / (clockTicks : ℚ)
      Idle := 0
      Iowait := iotime / (clockTicks : ℚ)
      Irq := 0
      Softirq := 0
      Steal := 0
      Guest := 0
      GuestNice := 0 }
  match goIndexList fields 22 with
  | .panic => .panic
  | .err e => .err e
  | .ok f22 =>
  match goParseUint64 f22 with
  | none => .err "ParseUint starttime"
  | some t =>
  let ctime : ℕ := t / clockTicks + bootTime
  let prod : ℕ := ctime * 1000 % 2 ^ 64
  let createTime : ℤ := if prod < 2 ^ 63 then (prod : ℤ) else (prod : ℤ) - 2 ^ 64
  match goIndexList fields 18 with
  | .panic => .panic
  | .err e => .err e
  | .ok f18 =>
  match goParseInt 32 f18 with
  | none => .err "ParseInt rtpriority"
  | some rtRaw =>
  let rtpriority : ℕ := if rtRaw < 0 then (rtRaw * -1 - 1).toNat else 0
  match goIndexList fields 10 with
  | .panic => .panic
  | .err e => .err e
  | .ok f10 =>
  match goParseUint64 f10 with
  | none => .err "ParseUint minFault"
  | some minFault =>
  match goIndexList fields 11 with
  | .panic => .panic
  | .err e => .err e
  | .ok f11 =>
  match goParseUint64 f11 with
  | none => .err "ParseUint cMinFault"
  | some cMinFault =>
  match goIndexList fields 12 with
  | .panic => .panic
  | .err e => .err e
  | .ok f12 =>
  match goParseUint64 f12 with
  | none => .err "ParseUint majFault"
  | some majFault =>
  match goIndexList fields 13 with
  | .panic => .panic
  | .err e => .err e
  | .ok f13 =>
  match goParseUint64 f13 with
  | none => .err "ParseUint cMajFault"
  | some cMajFault =>
    .ok { terminal := terminal
          ppid := ppid
          cpuTimes := cpuTimes
          createTime := createTime
          rtpriority := rtpriority
          nice := snice
          faults := { MinorFaults := minFault
                      MajorFaults := majFault
                      ChildMinorFaults := cMinFault
                      ChildMajorFaults := cMajFault } }

/-- `fillFromTIDStatWithContext` from `cpuproc_linux.go`, given the bytes read
from the process-stat pseudo-file (the `os.ReadFile` error return is the
separate `Unreadable` path, not modelled here). -/
def fillFromTIDStatWithContext (content : String) (bootTime : ℕ) (snice : ℤ) :
    GoResult String ProcStatResult :=
  match splitProcStat content.data with
  | none => .panic
  | some fields => fillFromFields fields bootTime snice

/-- All ten required stat-record fields parse with the parser the source
applies to each (`ParseUint` for terminal/start-time/faults, `ParseInt` for
ppid/rt-priority, `ParseFloat` for utime/stime). -/
def requiredFieldsOk (fields : List String) : Prop :=
  (goParseUint64 (fields.getD 7 "")).isSome = true ∧
  (goParseInt 32 (fields.getD 4 "")).isSome = true ∧
  (goParseFloat (fields.getD 14 "")).isSome = true ∧
  (goParseFloat (fields.getD 15 "")).isSome = true ∧
  (goParseUint64 (fields.getD 22 "")).isSome = true ∧
  (goParseInt 32 (fields.getD 18 "")).isSome = true ∧
  (goParseUint64 (fields.getD 10 "")).isSome = true ∧
  (goParseUint64 (fields.getD 11 "")).isSome = true ∧
  (goParseUint64 (fields.getD 12 "")).isSome = true ∧
  (goParseUint64 (fields.getD 13 "")).isSome = true

/-- A complete 23-field process-stat record used as a concrete test vector. -/
def procContent : String :=
  "1 (init) S 1 1 1 7 0 0 10 11 12 13 14 15 0 0 18 0 0 0 22"

/-- The split of `procContent` (checked by evaluation in the proofs). -/
def procFields : List String :=
  ["", "1", "init", "S", "1", "1", "1", "7", "0", "0", "10", "11", "12", "13",
   "14", "15", "0", "0", "18", "0", "0", "0", "22"]

/-- `CPUPercentWithContext` on the process handle, from `cpuproc_linux.go`:
lifetime busy percent.  The create-time read and the clock are abstracted:
`cputTotal` stands for `cput.Total()` (the accumulated CPU seconds of the
process, from its stat record) and `totalTime` for `time.Since(created).Seconds()`. -/
def CPUPercentWithContext (cputTotal totalTime : ℚ) : ℚ :=
  if totalTime ≤ 0 then 0 else 100 * cputTotal / totalTime

/-- `CPUPercent` on the process handle, from `cpuproc_linux.go`: the raw
lifetime percent divided by `float64(total) * float64(100)`, where
`total = p.set.Count()` is the size of the affinity set captured at handle
construction. -/
def CPUPercent (affinityCount : ℕ) (cputTotal totalTime : ℚ) : ℚ :=
  CPUPercentWithContext cputTotal totalTime / ((affinityCount : ℚ) * 100)

/-- `PercentWithContext` from `cpuproc_linux.go` in interval mode
(`interval > 0`), with the two file reads abstracted as in
`TimesWithContext`; the `Sleep` between them is cancellation-only and adds no
data. -/
def PercentWithContext (read1 read2 : Option (List String)) (percpu : Bool) :
    Except CPUErr (List ℚ) :=
  calculateAllBusy (TimesWithContext read1 percpu) (TimesWithContext read2 percpu)

/-- `PercentTotal` from `cpuproc_linux.go`: propagates an error, otherwise
returns `rv[0]` with no emptiness check — an empty percentage list is the
out-of-range panic. -/
def PercentTotal (read1 read2 : Option (List String)) : GoResult CPUErr ℚ :=
  match PercentWithContext read1 read2 false with
  | .error e => .err e
  | .ok [] => .panic
  | .ok (x :: _) => .ok x

/-- The shared last-sample cache `lastPercent` (mutex elided; `none` models a
nil Go slice — note `TimesWithContext` never returns nil). -/
structure lastPercent where
  lastCPUTimes : Option (List TimesStat)
  lastPerCPUTimes : Option (List TimesStat)
  deriving DecidableEq, Repr

/-- The cache slot for the requested mode. -/
def cacheSlot (st : lastPercent) (percpu : Bool) : Option (List TimesStat) :=
  if percpu then st.lastPerCPUTimes else st.lastCPUTimes

/-- `percentUsedFromLastCallWithContext` from `cpuproc_linux.go`, as a state
transition on the cache: read the baseline for the mode, overwrite that slot
with the fresh sample `cpuTimes` (the `TimesWithContext` result), and only
then check the baseline for nil.  Returns (result, updated cache). -/
def percentUsedFromLastCallWithContext (percpu : Bool)
    (cpuTimes : List TimesStat) (st : lastPercent) :
    Except CPUErr (List ℚ) × lastPercent :=
  let lastTimes := cacheSlot st percpu
  let st' :=
    if percpu then { st with lastPerCPUTimes := some cpuTimes }
    else { st with lastCPUTimes := some cpuTimes }
  match lastTimes with
  | none => (.error .noBaseline, st')
  | some lt => (calculateAllBusy lt cpuTimes, st')

/-- Read-error kinds distinguished by `handleBootTimeFileReadErr`. -/
inductive ReadErr where
  | permission
  | other
  deriving DecidableEq, Repr

/-- Environment of one `BootTimeWithContext` call: the virtualization lookup
result (`VirtualizationWithContext` never returns an error), the result of
`ReadLine(stat, "btime")`, the result of `ReadLines(uptime)`, the sysinfo
uptime for the permission fallback, and the two clock readings the source
takes (`UnixNano()/Second` as int64, and as float64). -/
structure BootTimeEnv where
  virtSystem : String
  virtRole : String
  statBtimeLine : Except ReadErr String
  uptimeLines : Except ReadErr (List String)
  sysUptime : ℤ
  nowSecTrunc : ℤ
  nowSecFloat : ℚ

/-- `handleBootTimeFileReadErr` from `common_linux.go`: a permission error
falls back to `now - sysinfo.Uptime` cast to uint64 (the sysinfo-failure
sub-path is not needed by the claims); any other error propagates. -/
def handleBootTimeFileReadErr (env : BootTimeEnv) (e : ReadErr) :
    Except String ℕ :=
  match e with
  | .permission => .ok (goIntToUint64 (env.nowSecTrunc - env.sysUptime))
  | .other => .error "read error"

/-- `readBootTimeStat` from `common_linux.go`: take the `btime` line of the
stat file (empty string when `ReadLine` found none), require exactly two
fields, parse the second as int64 and cast to uint64. -/
def readBootTimeStat (env : BootTimeEnv) : Except String ℕ :=
  match env.statBtimeLine with
  | .error e => handleBootTimeFileReadErr env e
  | .ok line =>
    if goStartsWith line "btime" then
      match goFields line with
      | [_, f1] =>
        match goParseInt 64 f1 with
        | none => .error "ParseInt btime"
        | some b => .ok (goIntToUint64 b)
      | _ => .error "wrong btime format"
    else .error "could not find btime"

/-- `BootTimeWithContext` from `common_linux.go`, returning (value, final
cached value).  The source computes `useStatFile` from the virtualization
lookup, and when it is true reads the stat btime — propagating its error and
(when caching) storing its value — but then falls through unconditionally to
the uptime file: it parses the first field of the single uptime line and
returns `uint64(now - uptime)`, overwriting the cache again.  (`fields[0]` of
the uptime line is modelled with a default, the claims never reach an empty
line.) -/
def BootTimeWithContext (env : BootTimeEnv) (enableCache : Bool)
    (cachedBootTime : ℕ) : Except String (ℕ × ℕ) :=
  if enableCache ∧ cachedBootTime ≠ 0 then .ok (cachedBootTime, cachedBootTime)
  else
    let lxcGuest := env.virtSystem == "lxc" && env.virtRole == "guest"
    let dockerGuest := env.virtSystem == "docker" && env.virtRole == "guest"
    let useStatFile := !(lxcGuest || dockerGuest)
    let afterStat : Except String ℕ :=
      if useStatFile then
        match readBootTimeStat env with
        | .error e => .error e
        | .ok t => .ok (if enableCache then t else cachedBootTime)
      else .ok cachedBootTime
    match afterStat with
    | .error e => .error e
    | .ok cache1 =>
      match env.uptimeLines with
      | .error e =>
        match handleBootTimeFileReadErr env e with
        | .error e2 => .error e2
        | .ok t => .ok (t, cache1)
      | .ok lines =>
        if lines.length ≠ 1 then .error "wrong uptime format"
        else
          match goParseFloat ((goFields (lines.getD 0 "")).getD 0 "") with
          | none => .error "ParseFloat uptime"
          | some b =>
            let t := goFloatToUint64 (env.nowSecFloat - b)
            .ok (t, if enableCache then t else cache1)

/-- A non-virtualized environment whose stat file says btime 1000 but whose
uptime file and clock say the system booted at second 4900. -/
def bootEnvNoVirt : BootTimeEnv :=
  { virtSystem := ""
    virtRole := ""
    statBtimeLine := .ok "btime 1000"
    uptimeLines := .ok ["100.00 200.00"]
    sysUptime := 0
    nowSecTrunc := 5000
    nowSecFloat := 5000 }

instance {ε α : Type} [DecidableEq ε] [DecidableEq α] : DecidableEq (Except ε α) := fun a b =>
  match a, b with
  | .ok x, .ok y =>
    if h : x = y then isTrue (by rw [h]) else isFalse (by simp [h])
  | .error x, .error y =>
    if h : x = y then isTrue (by rw [h]) else isFalse (by simp [h])
  | .ok _, .error _ => isFalse (by simp)
  | .error _, .ok _ => isFalse (by simp)

lemma mem_zipWith {α : Type} {f : α → α → ℚ} :
    ∀ {l1 l2 : List α} {x : ℚ}, x ∈ List.zipWith f l1 l2 → ∃ a b, x = f a b := by
  intro l1
  induction l1 with
  | nil => intro l2 x h; simp at h
  | cons a t ih =>
    intro l2 x h
    cases l2 with
    | nil => simp at h
    | cons b t2 =>
      simp only [List.zipWith, List.mem_cons] at h
      rcases h with h | h
      · exact ⟨a, b, h⟩
      · exact ih h

lemma parseStatLine_CPU_eq {line : String} {ts : TimesStat}
    (h : parseStatLine line = .ok ts) :
    ts.CPU = if (goFields line).getD 0 "" = "cpu" then "cpu-total"
             else (goFields line).getD 0 "" := by
  unfold parseStatLine at h
  simp only [] at h
  repeat' split at h
  all_goals simp_all
  all_goals subst h
  all_goals rfl

/-- C3: for every pair of snapshots, `calculateBusy` lies in `[0, 100]`, and
every percentage list that `calculateAllBusy` successfully returns consists of
values in `[0, 100]` — callers never receive a negative or greater-than-100
percentage. -/
theorem calculateBusy_clamped :
    (∀ t1 t2 : TimesStat, 0 ≤ calculateBusy t1 t2 ∧ calculateBusy t1 t2 ≤ 100) ∧
    (∀ (t1 t2 : List TimesStat) (r : List ℚ),
      calculateAllBusy t1 t2 = .ok r → ∀ x ∈ r, 0 ≤ x ∧ x ≤ 100) := by
  have hb : ∀ t1 t2 : TimesStat, 0 ≤ calculateBusy t1 t2 ∧ calculateBusy t1 t2 ≤ 100 := by
    intro t1 t2
    unfold calculateBusy
    simp only []
    by_cases h1 : (getAllBusy t2).2 ≤ (getAllBusy t1).2
    · simp [h1]
    · by_cases h2 : (getAllBusy t2).1 ≤ (getAllBusy t1).1
      · simp [h1, h2]
      · simp only [h1, h2, if_false]
        constructor
        · exact le_min (by norm_num) (le_max_left 0 _)
        · exact min_le_left 100 _
  refine ⟨hb, ?_⟩
  intro t1 t2 r hr x hx
  unfold calculateAllBusy at hr
  split at hr
  · exact absurd hr (by simp)
  · simp only [Except.ok.injEq] at hr
    subst hr
    obtain ⟨a, b, hab⟩ := mem_zipWith hx
    exact hab ▸ hb a b

/-- Witness for C3: a concrete successful diff of two one-element snapshot
sequences, whose single percentage is clamped. -/
theorem calculateBusy_clamped_witness :
    0 ≤ (0 : ℚ) ∧ (0 : ℚ) ≤ 100 := by
  have hz : calculateAllBusy [zeroStat] [zeroStat] = .ok [0] := by
    simp [calculateAllBusy, calculateBusy, getAllBusy, TimesStat.Total, zeroStat]
  exact calculateBusy_clamped.2 [zeroStat] [zeroStat] [0] hz 0 (by simp)

/-- C4: with `all` and `busy` computed guest-adjusted by `getAllBusy`, a
non-increasing busy counter yields exactly 0, and a busy increase with a
non-increasing total yields exactly 100. -/
theorem calculateBusy_policies (t1 t2 : TimesStat) :
    ((getAllBusy t2).2 ≤ (getAllBusy t1).2 → calculateBusy t1 t2 = 0) ∧
    ((getAllBusy t1).2 < (getAllBusy t2).2 → (getAllBusy t2).1 ≤ (getAllBusy t1).1 →
      calculateBusy t1 t2 = 100) := by
  constructor
  · intro h
    unfold calculateBusy
    simp [h]
  · intro hb ha
    unfold calculateBusy
    rw [if_neg (by exact not_le.mpr hb), if_pos ha]

/-- Witness for C4: both policies exercised on concrete snapshots — equal
snapshots give 0; a snapshot pair where busy rises from 0 to 1 while the
guest-adjusted total stays 1 gives 100. -/
theorem calculateBusy_policies_witness :
    calculateBusy zeroStat zeroStat = 0 ∧
    calculateBusy idleOneStat userOneStat = 100 := by
  constructor
  · exact (calculateBusy_policies zeroStat zeroStat).1 (le_refl _)
  · refine (calculateBusy_policies idleOneStat userOneStat).2 ?_ ?_
    · show (0:ℚ) + 0 + 0 + 1 + 0 + 0 + 0 + 0 + 0 + 0 - 0 - 0 - 1 - 0 <
        1 + 0 + 0 + 0 + 0 + 0 + 0 + 0 + 0 + 0 - 0 - 0 - 0 - 0
      norm_num
    · show (1:ℚ) + 0 + 0 + 0 + 0 + 0 + 0 + 0 + 0 + 0 - 0 - 0 ≤
        0 + 0 + 0 + 1 + 0 + 0 + 0 + 0 + 0 + 0 - 0 - 0
      norm_num

/-- C5: diffing two snapshot sequences of unequal length always fails with the
shape-mismatch error and produces no percentage result. -/
theorem calculateAllBusy_shape (t1 t2 : List TimesStat)
    (h : t1.length ≠ t2.length) :
    calculateAllBusy t1 t2 = .error (.shapeMismatch t1.length t2.length) := by
  unfold calculateAllBusy
  simp [h]

/-- Witness for C5: a one-element sequence against an empty one fails with the
shape-mismatch error. -/
theorem calculateAllBusy_shape_witness :
    calculateAllBusy [zeroStat] [] = .error (.shapeMismatch 1 0) :=
  calculateAllBusy_shape [zeroStat] [] (by simp)

lemma goStartsWith_cpu0 (r : String) : goStartsWith ("cpu0 " ++ r) "cpu" = true := by
  unfold goStartsWith
  rw [String.data_append]
  have h : "cpu0 ".data = ['c', 'p', 'u', '0', ' '] := by decide
  have h2 : "cpu".data = ['c', 'p', 'u'] := by decide
  rw [h, h2]
  simp [List.isPrefixOf]

lemma goStartsWith_cpu1 (r : String) : goStartsWith ("cpu1 " ++ r) "cpu" = true := by
  unfold goStartsWith
  rw [String.data_append]
  have h : "cpu1 ".data = ['c', 'p', 'u', '1', ' '] := by decide
  have h2 : "cpu".data = ['c', 'p', 'u'] := by decide
  rw [h, h2]
  simp [List.isPrefixOf]

lemma goStartsWith_intr (r : String) : goStartsWith ("intr " ++ r) "cpu" = false := by
  unfold goStartsWith
  rw [String.data_append]
  have h : "intr ".data = ['i', 'n', 't', 'r', ' '] := by decide
  have h2 : "cpu".data = ['c', 'p', 'u'] := by decide
  rw [h, h2]
  simp [List.isPrefixOf]

lemma goFields_cpu0 (r : String) :
    goFields ("cpu0 " ++ r) = "cpu0" :: fieldsAux [] r.data := by
  unfold goFields
  rw [String.data_append]
  have h : "cpu0 ".data = ['c', 'p', 'u', '0', ' '] := by decide
  rw [h]
  simp [fieldsAux, goIsSpace]

lemma goFields_cpu1 (r : String) :
    goFields ("cpu1 " ++ r) = "cpu1" :: fieldsAux [] r.data := by
  unfold goFields
  rw [String.data_append]
  have h : "cpu1 ".data = ['c', 'p', 'u', '1', ' '] := by decide
  rw [h]
  simp [fieldsAux, goIsSpace]

/-- C7: with ticks-per-second 100, the aggregate line
`"cpu 100 0 50 800 10 0 0"` parses to user=1, nice=0, system=1/2, idle=8,
iowait=1/10, irq=0, softirq=0 with identifier `"cpu-total"`; and every
successfully parsed line whose first field is `"cpu" ++ N` for a nonempty
digit string N keeps identifier `"cpu" ++ N`. -/
theorem parseStatLine_aggregate_and_percore :
    parseStatLine "cpu 100 0 50 800 10 0 0" =
      Except.ok ⟨"cpu-total", 1, 0, 1/2, 8, 1/10, 0, 0, 0, 0, 0⟩ ∧
    (∀ (line : String) (ts : TimesStat) (N : String),
      parseStatLine line = Except.ok ts →
      (goFields line).getD 0 "" = "cpu" ++ N →
      N ≠ "" →
      (∀ c ∈ N.data, c.isDigit) →
      ts.CPU = "cpu" ++ N) := by
  constructor
  · simp [parseStatLine, goFields, fieldsAux, goIsSpace, goStartsWith, goParseFloat,
      decDigits, ClocksPerSec]
    norm_num
  · intro line ts N hok hhead hN _
    have hcpu := parseStatLine_CPU_eq hok
    have hne : ¬ ("cpu" ++ N = "cpu") := by
      intro heq
      apply hN
      have hd := congrArg String.data heq
      rw [String.data_append] at hd
      have hl := congrArg List.length hd
      simp only [List.length_append] at hl
      have hzero : N.data.length = 0 := by omega
      have hnil : N.data = [] := List.length_eq_zero.mp hzero
      apply String.ext
      simp [hnil]
    rw [hhead, if_neg hne] at hcpu
    exact hcpu

/-- Witness for C7: the line `"cpu0 1 2 3 4 5 6 7"` parses successfully and
its identifier stays `"cpu0"`. -/
theorem parseStatLine_percore_witness :
    parseStatLine "cpu0 1 2 3 4 5 6 7" =
      Except.ok ⟨"cpu0", 1/100, 1/50, 3/100, 1/25, 1/20, 3/50, 7/100, 0, 0, 0⟩ ∧
    (⟨"cpu0", 1/100, 1/50, 3/100, 1/25, 1/20, 3/50, 7/100, 0, 0, 0⟩ : TimesStat).CPU
      = "cpu0" := by
  have hp : parseStatLine "cpu0 1 2 3 4 5 6 7" =
      Except.ok ⟨"cpu0", 1/100, 1/50, 3/100, 1/25, 1/20, 3/50, 7/100, 0, 0, 0⟩ := by
    simp [parseStatLine, goFields, fieldsAux, goIsSpace, goStartsWith, goParseFloat,
      decDigits, ClocksPerSec]
    norm_num
  refine ⟨hp, ?_⟩
  have hres := parseStatLine_aggregate_and_percore.2 "cpu0 1 2 3 4 5 6 7" _ "0" hp
    (by decide) (by decide) (by decide)
  exact hres.trans (by decide)

/-- C8: a per-core sample over the four lines `cpu …`, `cpu0 …`, `cpu1 …`,
`intr …` returns exactly the two parsed per-core stats for cpu0 and cpu1 in
that order: the aggregate first line is skipped and iteration stops at the
first subsequent line not starting with `"cpu"`. -/
theorem TimesWithContext_percpu_stop (r0 r1 r2 r3 : String) (s1 s2 : TimesStat)
    (h1 : parseStatLine ("cpu0 " ++ r1) = Except.ok s1)
    (h2 : parseStatLine ("cpu1 " ++ r2) = Except.ok s2) :
    TimesWithContext
        (some ["cpu " ++ r0, "cpu0 " ++ r1, "cpu1 " ++ r2, "intr " ++ r3]) true
      = [s1, s2] ∧ s1.CPU = "cpu0" ∧ s2.CPU = "cpu1" := by
  refine ⟨?_, ?_, ?_⟩
  · unfold TimesWithContext
    simp [List.takeWhile, goStartsWith_cpu0, goStartsWith_cpu1, goStartsWith_intr,
      List.filterMap_cons, Except.toOption, h1, h2]
  · have hcpu := parseStatLine_CPU_eq h1
    rw [goFields_cpu0] at hcpu
    simpa using hcpu
  · have hcpu := parseStatLine_CPU_eq h2
    rw [goFields_cpu1] at hcpu
    simpa using hcpu

/-- Witness for C8: concrete four-line file with parseable cpu0/cpu1 lines. -/
theorem TimesWithContext_percpu_stop_witness :
    TimesWithContext
        (some ["cpu " ++ "100 0 50 800 10 0 0", "cpu0 " ++ "1 2 3 4 5 6 7",
          "cpu1 " ++ "8 0 0 0 0 0 0", "intr " ++ "12345 0 0"]) true
      = [⟨"cpu0", 1/100, 1/50, 3/100, 1/25, 1/20, 3/50, 7/100, 0, 0, 0⟩,
         ⟨"cpu1", 2/25, 0, 0, 0, 0, 0, 0, 0, 0, 0⟩] ∧
    (⟨"cpu0", 1/100, 1/50, 3/100, 1/25, 1/20, 3/50, 7/100, 0, 0, 0⟩ : TimesStat).CPU
      = "cpu0" ∧
    (⟨"cpu1", 2/25, 0, 0, 0, 0, 0, 0, 0, 0, 0⟩ : TimesStat).CPU = "cpu1" := by
  have e1 : ("cpu0 " ++ "1 2 3 4 5 6 7" : String) = "cpu0 1 2 3 4 5 6 7" := by decide
  have e2 : ("cpu1 " ++ "8 0 0 0 0 0 0" : String) = "cpu1 8 0 0 0 0 0 0" := by decide
  have h1 : parseStatLine ("cpu0 " ++ "1 2 3 4 5 6 7") =
      Except.ok ⟨"cpu0", 1/100, 1/50, 3/100, 1/25, 1/20, 3/50, 7/100, 0, 0, 0⟩ := by
    rw [e1]
    simp [parseStatLine, goFields, fieldsAux, goIsSpace, goStartsWith, goParseFloat,
      decDigits, ClocksPerSec]
    norm_num
  have h2 : parseStatLine ("cpu1 " ++ "8 0 0 0 0 0 0") =
      Except.ok ⟨"cpu1", 2/25, 0, 0, 0, 0, 0, 0, 0, 0, 0⟩ := by
    rw [e2]
    simp [parseStatLine, goFields, fieldsAux, goIsSpace, goStartsWith, goParseFloat,
      decDigits, ClocksPerSec]
    norm_num
  exact TimesWithContext_percpu_stop "100 0 50 800 10 0 0" "1 2 3 4 5 6 7"
    "8 0 0 0 0 0 0" "12345 0 0" _ _ h1 h2

/-- Counterexample to C6: the record `"1 (name) S"` has its parenthesized
name delimiters but lacks the required numeric fields; the call aborts with
an out-of-range index (panic), not with a malformed-input error return. -/
theorem fillFromTIDStat_missing_fields_panics :
    fillFromTIDStatWithContext "1 (name) S" 0 0 = GoResult.panic ∧
    GoResult.isErr (fillFromTIDStatWithContext "1 (name) S" 0 0) = false := by
  constructor <;> decide

/-- C6 (amended): on a record whose split succeeds with at least 23 fields,
process-stat parsing is all-or-nothing — it never panics, and it returns a
result exactly when every required field parses; any required-field parse
failure therefore aborts the whole call with an error.  (Records with missing
delimiters or fewer fields instead abort with an out-of-range access.) -/
theorem fillFromTIDStat_allOrNothing (content : String) (fields : List String)
    (bootTime : ℕ) (snice : ℤ)
    (hsplit : splitProcStat content.data = some fields)
    (hlen : 22 < fields.length) :
    fillFromTIDStatWithContext content bootTime snice ≠ GoResult.panic ∧
    ((∃ r, fillFromTIDStatWithContext content bootTime snice = GoResult.ok r) ↔
      requiredFieldsOk fields) := by
  unfold fillFromTIDStatWithContext
  rw [hsplit]
  unfold fillFromFields goIndexList
  have h7 : 7 < fields.length := by omega
  have h4 : 4 < fields.length := by omega
  have h14 : 14 < fields.length := by omega
  have h15 : 15 < fields.length := by omega
  have h22f : 22 < fields.length := hlen
  have h18 : 18 < fields.length := by omega
  have h10 : 10 < fields.length := by omega
  have h11 : 11 < fields.length := by omega
  have h12 : 12 < fields.length := by omega
  have h13 : 13 < fields.length := by omega
  simp only [if_pos h7, if_pos h4, if_pos h14, if_pos h15, if_pos h22f,
    if_pos h18, if_pos h10, if_pos h11, if_pos h12, if_pos h13]
  repeat' split
  all_goals simp_all [requiredFieldsOk]

/-- Witness for C6: a complete 23-field record parses all the way through. -/
theorem fillFromTIDStat_allOrNothing_witness :
    fillFromTIDStatWithContext procContent 0 0 ≠ GoResult.panic ∧
    ((∃ r, fillFromTIDStatWithContext procContent 0 0 = GoResult.ok r) ↔
      requiredFieldsOk procFields) :=
  fillFromTIDStat_allOrNothing procContent procFields 0 0 (by decide) (by decide)

/-- Counterexample to C1: a handle whose affinity set has 2 CPUs and whose
raw lifetime usage is 150% (1.5 CPU-seconds over 1 wall second) returns
3/4 = 0.75 from `CPUPercent`, not 150/2 = 75 as the claim states. -/
theorem CPUPercent_not_rawOverN :
    CPUPercentWithContext (3/2) 1 = 150 ∧
    CPUPercent 2 (3/2) 1 = 3/4 ∧
    ((3 : ℚ)/4) ≠ 150 / 2 := by
  refine ⟨?_, ?_, by norm_num⟩
  · unfold CPUPercentWithContext
    norm_num
  · unfold CPUPercent CPUPercentWithContext
    norm_num

/-- C1 (amended): for positive wall-clock lifetime, the handle method `CPUPercent`
returns the raw lifetime busy-percent divided by `100 * N` (N the affinity-set
size) — a fraction of the N-core capacity, not that percent divided by N. -/
theorem CPUPercent_normalization (n : ℕ) (cputTotal totalTime : ℚ)
    (h : 0 < totalTime) :
    CPUPercent n cputTotal totalTime =
      (100 * cputTotal / totalTime) / (100 * (n : ℚ)) := by
  unfold CPUPercent CPUPercentWithContext
  rw [if_neg (not_le.mpr h)]
  ring_nf

/-- Witness for C1 (amended): 2 CPUs, 1.5 CPU-seconds over 1 second. -/
theorem CPUPercent_normalization_witness :
    CPUPercent 2 (3/2) 1 = (100 * (3/2) / 1) / (100 * ((2 : ℕ) : ℚ)) :=
  CPUPercent_normalization 2 (3/2) 1 (by norm_num)

/-- C9: `PercentTotal` returns element 0 whenever the percentage list is
non-empty, but when the aggregate counter file is unreadable both samples
soft-fail to empty lists, the diff is `ok []` with no error, and the `rv[0]`
access is an out-of-range panic rather than an error return. -/
theorem PercentTotal_unchecked_index :
    (∀ (r1 r2 : Option (List String)) (x : ℚ) (xs : List ℚ),
      PercentWithContext r1 r2 false = .ok (x :: xs) →
      PercentTotal r1 r2 = GoResult.ok x) ∧
    (PercentWithContext none none false = .ok [] ∧
      PercentTotal none none = GoResult.panic) := by
  refine ⟨?_, by decide, by decide⟩
  intro r1 r2 x xs h
  unfold PercentTotal
  rw [h]

/-- Witness for C9: a readable one-line file on both samples yields the first
percentage. -/
theorem PercentTotal_unchecked_index_witness :
    PercentTotal (some ["cpu 100 0 50 800 10 0 0"])
      (some ["cpu 100 0 50 800 10 0 0"]) = GoResult.ok 0 := by
  have hp : parseStatLine "cpu 100 0 50 800 10 0 0" =
      Except.ok ⟨"cpu-total", 1, 0, 1/2, 8, 1/10, 0, 0, 0, 0, 0⟩ := by
    simp [parseStatLine, goFields, fieldsAux, goIsSpace, goStartsWith, goParseFloat,
      decDigits, ClocksPerSec]
    norm_num
  have h : PercentWithContext (some ["cpu 100 0 50 800 10 0 0"])
      (some ["cpu 100 0 50 800 10 0 0"]) false = .ok (0 :: []) := by
    unfold PercentWithContext TimesWithContext
    simp only [List.take, List.filterMap_cons, hp, Except.toOption,
      Bool.false_eq_true, if_false]
    unfold calculateAllBusy
    simp [calculateBusy]
  exact PercentTotal_unchecked_index.1 _ _ 0 [] h

/-- C10: in since-last-call mode the cache slot for the requested mode is
overwritten with the fresh sample before the baseline nil-check, so even a
call failing with the no-baseline error populates the cache, and the
immediately following call for the same mode never fails with that error. -/
theorem percentUsedFromLastCall_populates (percpu : Bool)
    (sample : List TimesStat) (st : lastPercent) :
    cacheSlot (percentUsedFromLastCallWithContext percpu sample st).2 percpu
      = some sample ∧
    (cacheSlot st percpu = none →
      (percentUsedFromLastCallWithContext percpu sample st).1
        = .error CPUErr.noBaseline) ∧
    (∀ sample2 : List TimesStat,
      (percentUsedFromLastCallWithContext percpu sample2
        (percentUsedFromLastCallWithContext percpu sample st).2).1
        ≠ .error CPUErr.noBaseline) := by
  have hslot : ∀ (p : Bool) (s : List TimesStat) (t : lastPercent),
      cacheSlot (percentUsedFromLastCallWithContext p s t).2 p = some s := by
    intro p s t
    unfold percentUsedFromLastCallWithContext cacheSlot
    simp only []
    cases p <;> cases t.lastCPUTimes <;> cases t.lastPerCPUTimes <;> simp_all
  refine ⟨hslot percpu sample st, ?_, ?_⟩
  · intro h
    unfold percentUsedFromLastCallWithContext
    simp only []
    rw [h]
  · intro sample2
    have h1 := hslot percpu sample st
    generalize hg : (percentUsedFromLastCallWithContext percpu sample st).2 = st2 at h1
    unfold percentUsedFromLastCallWithContext
    simp only []
    rw [h1]
    dsimp only []
    unfold calculateAllBusy
    split <;> simp

/-- Witness for C10: starting from an empty cache in aggregate mode, the
first call fails with the no-baseline error yet populates the slot, and the
immediate second call does not fail with that error. -/
theorem percentUsedFromLastCall_populates_witness :
    cacheSlot (percentUsedFromLastCallWithContext false [] ⟨none, none⟩).2 false
      = some [] ∧
    (percentUsedFromLastCallWithContext false [] ⟨none, none⟩).1
      = .error CPUErr.noBaseline ∧
    (percentUsedFromLastCallWithContext false []
      (percentUsedFromLastCallWithContext false [] ⟨none, none⟩).2).1
      ≠ .error CPUErr.noBaseline := by
  obtain ⟨h1, h2, h3⟩ :=
    percentUsedFromLastCall_populates false [] ⟨none, none⟩
  exact ⟨h1, h2 rfl, h3 []⟩

/-- C2 evaluation at its failing input: with virtualization reporting neither
an lxc guest nor a docker guest, a stat file whose btime is 1000 and an
uptime of 100 s read at current time 5000 s, the lookup returns 4900 — the
uptime-derived value — not the btime 1000 it just read from the stat file. -/
theorem BootTime_nonguest_returns_uptime_value :
    BootTimeWithContext bootEnvNoVirt false 0 = .ok (4900, 0) ∧
    (4900 : ℕ) ≠ 1000 := by
  constructor
  · have hstat : readBootTimeStat bootEnvNoVirt = .ok 1000 := by decide
    have hcond : (!((bootEnvNoVirt.virtSystem == "lxc" &&
        bootEnvNoVirt.virtRole == "guest") ||
        (bootEnvNoVirt.virtSystem == "docker" &&
        bootEnvNoVirt.virtRole == "guest"))) = true := by decide
    have hup : bootEnvNoVirt.uptimeLines = .ok ["100.00 200.00"] := by decide
    have hf : (goFields ((["100.00 200.00"] : List String).getD 0 "")).getD 0 ""
        = "100.00" := by decide
    have hfloat : goParseFloat "100.00" = some 100 := by
      simp [goParseFloat, decDigits]
    have hnow : bootEnvNoVirt.nowSecFloat = 5000 := rfl
    have hfl : goFloatToUint64 ((5000 : ℚ) - 100) = 4900 := by
      have h49 : (5000 : ℚ) - 100 = ((4900 : ℤ) : ℚ) := by norm_num
      unfold goFloatToUint64
      rw [h49, Int.floor_intCast]
      rfl
    unfold BootTimeWithContext
    simp only [hcond, hstat, hup, hnow, hf, hfloat, hfl]
    norm_num
  · decide

end Cpuproc
